import Mathlib

/-!
Verification of the shared-ptr reference-counting engine
(src/shared-ptr.h, src/shared-ptr.cpp).

The embedding is shallow and instrumented:

* `control_block` carries the two counters of the C++ `control_block`
  (`strong_cnt`, `weak_cnt`, src/shared-ptr.h lines 25-26) plus two ghost
  event counters: `dataDeleted` counts how many times the virtual
  `delete_data()` has run (payload destruction), and `freed` counts how many
  times `delete this` has run in `dec_weak` (control-block deallocation).
  The counter operations are translated line by line from
  src/shared-ptr.cpp.

* `shared_ptr` / `weak_ptr` are modelled as the pair the source stores: a
  flag `cb` saying whether the handle's control-block pointer is non-null
  (all claims concern handles over a single payload, so one block suffices)
  and the payload pointer `ptr` (`none` = null, `some v` = the address v).
  Handle operations are translated from src/shared-ptr.h and act on the
  handle together with the shared `control_block`.

* A small-step system (`Op`, `step`, `exec`) replays arbitrary finite
  sequences of handle operations that touch the single shared block:
  copying / moving / dropping owning handles, copying / moving / dropping
  observer handles, and `lock`.  `owners` and `observers` count the live
  handles of each kind whose control-block pointer is non-null.  `step`
  returns `none` when the event has no live handle to act on (such a
  sequence cannot be produced by a C++ program).
-/

/-- The C++ `control_block` (src/shared-ptr.h lines 10-27) with its two
counters, instrumented with ghost counters for the two destruction events:
`dataDeleted` counts runs of the virtual `delete_data()` and `freed` counts
runs of `delete this` in `dec_weak` (src/shared-ptr.cpp line 28). -/
structure control_block where
  strong_cnt : Nat
  weak_cnt : Nat
  dataDeleted : Nat
  freed : Nat
deriving Repr, DecidableEq

/-- The member initializers `strong_cnt{0}`, `weak_cnt{0}`
(src/shared-ptr.h lines 25-26); no destruction event has happened. -/
def control_block.init : control_block :=
  { strong_cnt := 0, weak_cnt := 0, dataDeleted := 0, freed := 0 }

/-- `control_block::get_strong` (src/shared-ptr.cpp lines 4-6). -/
def control_block.get_strong (b : control_block) : Nat :=
  b.strong_cnt

/-- `control_block::inc_weak` (src/shared-ptr.cpp lines 21-23):
`weak_cnt++`. -/
def control_block.inc_weak (b : control_block) : control_block :=
  { b with weak_cnt := b.weak_cnt + 1 }

/-- `control_block::inc_strong` (src/shared-ptr.cpp lines 8-11):
`strong_cnt++; inc_weak();`. -/
def control_block.inc_strong (b : control_block) : control_block :=
  control_block.inc_weak { b with strong_cnt := b.strong_cnt + 1 }

/-- The virtual `delete_data()` (src/shared-ptr.h lines 45-48 and 68-70):
destroys the payload; modelled by bumping the ghost event counter. -/
def control_block.delete_data (b : control_block) : control_block :=
  { b with dataDeleted := b.dataDeleted + 1 }

/-- `control_block::dec_weak` (src/shared-ptr.cpp lines 25-30):
`weak_cnt--; if (weak_cnt == 0) delete this;` — the self-deletion is the
ghost event `freed`. -/
def control_block.dec_weak (b : control_block) : control_block :=
  let b1 := { b with weak_cnt := b.weak_cnt - 1 }
  if b1.weak_cnt = 0 then { b1 with freed := b1.freed + 1 } else b1

/-- The prefix of `control_block::dec_strong` that runs before the weak
decrement (src/shared-ptr.cpp lines 14-17): `strong_cnt--; if (strong_cnt
== 0) delete_data();`. -/
def control_block.strongRelease (b : control_block) : control_block :=
  let b1 := { b with strong_cnt := b.strong_cnt - 1 }
  if b1.strong_cnt = 0 then control_block.delete_data b1 else b1

/-- `control_block::dec_strong` (src/shared-ptr.cpp lines 13-19): the
strong release prefix, then `dec_weak()`. -/
def control_block.dec_strong (b : control_block) : control_block :=
  control_block.dec_weak (control_block.strongRelease b)

/-- `obj_block::obj_block` (src/shared-ptr.h lines 58-61): placement-news
the payload into the embedded storage and does nothing else — in
particular it performs no counter operation, so the counters keep the
member-initializer values of `control_block`. -/
def obj_block_new : control_block :=
  control_block.init

/-- `ptr_block::ptr_block` (src/shared-ptr.h lines 32-38): stores the
deleter and the pointer, then calls `inc_strong()`. -/
def ptr_block_new : control_block :=
  control_block.init.inc_strong

/-- An owning handle (`shared_ptr`, src/shared-ptr.h lines 209-211): `cb`
says whether its control-block pointer is non-null (it then points at the
single shared block of the model) and `ptr` is its payload pointer. -/
structure shared_ptr where
  cb : Bool
  ptr : Option Nat
deriving Repr, DecidableEq

/-- An observer handle (`weak_ptr`, src/shared-ptr.h lines 276-278). -/
structure weak_ptr where
  cb : Bool
  ptr : Option Nat
deriving Repr, DecidableEq

/-- `shared_ptr()` / `shared_ptr(nullptr_t)` (src/shared-ptr.h lines
92-94): both members keep their `{nullptr}` initializers. -/
def shared_ptr.empty : shared_ptr :=
  { cb := false, ptr := none }

/-- `shared_ptr::nullify` (src/shared-ptr.h lines 198-201). -/
def shared_ptr.nullify : shared_ptr :=
  shared_ptr.empty

/-- `shared_ptr::safe_inc` (src/shared-ptr.h lines 203-207): increment the
strong count only when the control-block pointer is non-null. -/
def shared_ptr.safe_inc (h : shared_ptr) (b : control_block) : control_block :=
  if h.cb then b.inc_strong else b

/-- `shared_ptr::shared_ptr(const shared_ptr&)` (src/shared-ptr.h lines
111-113): copy both members, then `safe_inc()`.  Returns the new handle and
the updated block. -/
def shared_ptr.copyCtor (other : shared_ptr) (b : control_block) :
    shared_ptr × control_block :=
  let h : shared_ptr := { cb := other.cb, ptr := other.ptr }
  (h, h.safe_inc b)

/-- `shared_ptr::shared_ptr(shared_ptr&&)` (src/shared-ptr.h lines
115-117): copy both members, then `other.nullify()`.  Returns (new handle,
moved-from handle); no counter is touched. -/
def shared_ptr.moveCtor (other : shared_ptr) : shared_ptr × shared_ptr :=
  ({ cb := other.cb, ptr := other.ptr }, shared_ptr.nullify)

/-- The aliasing constructor `shared_ptr(const shared_ptr<Y>& p, T* ptr_)`
(src/shared-ptr.h lines 119-122): take `p`'s control block together with
the caller's arbitrary pointer, then `safe_inc()`. -/
def shared_ptr.aliasCtor (p : shared_ptr) (ptr_ : Option Nat)
    (b : control_block) : shared_ptr × control_block :=
  let h : shared_ptr := { cb := p.cb, ptr := ptr_ }
  (h, h.safe_inc b)

/-- The private constructor `shared_ptr(control_block* cb_, T* ptr_)`
(src/shared-ptr.h lines 193-196), used by `weak_ptr::lock` and
`make_shared`: store both members, then `safe_inc()`.  `cbNonNull` says
whether `cb_` is the (non-null) shared block. -/
def shared_ptr.privCtor (cbNonNull : Bool) (ptr_ : Option Nat)
    (b : control_block) : shared_ptr × control_block :=
  let h : shared_ptr := { cb := cbNonNull, ptr := ptr_ }
  (h, h.safe_inc b)

/-- `shared_ptr::use_count` (src/shared-ptr.h lines 165-167):
`cb ? cb->get_strong() : 0`. -/
def shared_ptr.use_count (h : shared_ptr) (b : control_block) : Nat :=
  if h.cb then b.get_strong else 0

/-- `shared_ptr::reset()` (src/shared-ptr.h lines 169-174): `if (cb)
cb->dec_strong(); nullify();`.  The destructor (lines 182-184) is exactly
this. -/
def shared_ptr.reset (h : shared_ptr) (b : control_block) :
    shared_ptr × control_block :=
  (shared_ptr.nullify, if h.cb then b.dec_strong else b)

/-- `shared_ptr::swap` (src/shared-ptr.h lines 186-190): exchange the two
pairs. -/
def shared_ptr.swap (a b : shared_ptr) : shared_ptr × shared_ptr :=
  (b, a)

/-- `shared_ptr::operator=(const shared_ptr&)` (src/shared-ptr.h lines
127-131) for distinct objects: `tmp(other); swap(tmp);` then `tmp` is
destroyed.  Returns (new value of `*this`, updated block). -/
def shared_ptr.copyAssign (this other : shared_ptr) (b : control_block) :
    shared_ptr × control_block :=
  let tb := shared_ptr.copyCtor other b
  let st := shared_ptr.swap this tb.1
  let rb := shared_ptr.reset st.2 tb.2
  (st.1, rb.2)

/-- `shared_ptr::operator=(shared_ptr&&)` (src/shared-ptr.h lines 133-137)
for distinct objects: `tmp(move(other)); swap(tmp);` then `tmp` is
destroyed.  Returns (new value of `*this`, moved-from `other`, updated
block). -/
def shared_ptr.moveAssign (this other : shared_ptr) (b : control_block) :
    shared_ptr × shared_ptr × control_block :=
  let tm := shared_ptr.moveCtor other
  let st := shared_ptr.swap this tm.1
  let rb := shared_ptr.reset st.2 b
  (st.1, tm.2, rb.2)

/-- Move self-assignment `h = std::move(h)` (src/shared-ptr.h lines
133-137 with `other` aliasing `*this`): the move construction of `tmp`
reads `*this` and nullifies it, the swap restores the stored pair into
`*this`, and destroying the now-null `tmp` touches no counter. -/
def shared_ptr.moveSelfAssign (h : shared_ptr) (b : control_block) :
    shared_ptr × control_block :=
  let tmp : shared_ptr := { cb := h.cb, ptr := h.ptr }
  let this1 := shared_ptr.nullify
  let st := shared_ptr.swap this1 tmp
  let rb := shared_ptr.reset st.2 b
  (st.1, rb.2)

/-- `weak_ptr(const shared_ptr<T>&)` and `weak_ptr(const weak_ptr<T>&)`
(src/shared-ptr.h lines 219-225): copy both members, then `safe_inc()`,
which increments the weak count when the control-block pointer is non-null
(lines 270-274). -/
def weak_ptr.fromHandle (cbNonNull : Bool) (ptr_ : Option Nat)
    (b : control_block) : weak_ptr × control_block :=
  ({ cb := cbNonNull, ptr := ptr_ },
   if cbNonNull then b.inc_weak else b)

/-- `weak_ptr()` (src/shared-ptr.h line 217): both members keep their
`{nullptr}` initializers. -/
def weak_ptr.empty : weak_ptr :=
  { cb := false, ptr := none }

/-- `weak_ptr(weak_ptr&&)` (src/shared-ptr.h lines 227-230): copy both
members, then null the source's members.  Returns (new handle, moved-from
handle); no counter is touched. -/
def weak_ptr.moveCtor (other : weak_ptr) : weak_ptr × weak_ptr :=
  ({ cb := other.cb, ptr := other.ptr }, weak_ptr.empty)

/-- `weak_ptr::swap` (src/shared-ptr.h lines 263-267): exchange the two
pairs. -/
def weak_ptr.swap (a b : weak_ptr) : weak_ptr × weak_ptr :=
  (b, a)

/-- `weak_ptr::~weak_ptr` (src/shared-ptr.h lines 256-261): `if (cb)
cb->dec_weak();` then null the pointer. -/
def weak_ptr.dtor (w : weak_ptr) (b : control_block) : control_block :=
  if w.cb then b.dec_weak else b

/-- `weak_ptr::operator=(const weak_ptr<T>&)` (src/shared-ptr.h lines
238-242) for distinct objects: `tmp(other); swap(tmp);` then `tmp` is
destroyed (its destructor does the weak decrement when its control-block
pointer is non-null).  Returns (new value of `*this`, updated block). -/
def weak_ptr.copyAssign (this other : weak_ptr) (b : control_block) :
    weak_ptr × control_block :=
  let tb := weak_ptr.fromHandle other.cb other.ptr b
  let st := weak_ptr.swap this tb.1
  (st.1, weak_ptr.dtor st.2 tb.2)

/-- `weak_ptr::operator=(weak_ptr<T>&&)` (src/shared-ptr.h lines 232-236)
for distinct objects: `tmp(std::move(other)); swap(tmp);` then `tmp` is
destroyed.  Returns (new value of `*this`, moved-from `other`, updated
block). -/
def weak_ptr.moveAssign (this other : weak_ptr) (b : control_block) :
    weak_ptr × weak_ptr × control_block :=
  let tm := weak_ptr.moveCtor other
  let st := weak_ptr.swap this tm.1
  (st.1, tm.2, weak_ptr.dtor st.2 b)

/-- `weak_ptr::operator=(const shared_ptr<T>&)` (src/shared-ptr.h lines
244-248): `tmp(other); swap(tmp);` then `tmp` is destroyed, where `tmp` is
built from the Owning Handle through the converting constructor. -/
def weak_ptr.assignFromShared (this : weak_ptr) (other : shared_ptr)
    (b : control_block) : weak_ptr × control_block :=
  let tb := weak_ptr.fromHandle other.cb other.ptr b
  let st := weak_ptr.swap this tb.1
  (st.1, weak_ptr.dtor st.2 tb.2)

/-- `weak_ptr::lock` (src/shared-ptr.h lines 250-254): if the control
block exists and its strong count is nonzero, build a `shared_ptr` through
the private constructor (which `safe_inc`s); otherwise return an empty
handle. -/
def weak_ptr.lock (w : weak_ptr) (b : control_block) :
    shared_ptr × control_block :=
  if w.cb ∧ b.get_strong ≠ 0 then
    shared_ptr.privCtor true w.ptr b
  else
    (shared_ptr.empty, b)

/-- `make_shared` (src/shared-ptr.h lines 281-287): allocate an
`obj_block` (whose constructor touches no counter), then wrap it through
the private `shared_ptr` constructor, which `safe_inc`s.  The payload
pointer is the block's embedded storage, modelled as address 0. -/
def make_shared : shared_ptr × control_block :=
  shared_ptr.privCtor true (some 0) obj_block_new

/-- `shared_ptr(Y* ptr_, D&& deleter)` (src/shared-ptr.h lines 96-109):
tries to allocate a `ptr_block` (which registers one strong reference);
`throws` says whether that construction throws (deleter copy/move or the
allocation).  Result: the outcome (`Except.error ()` = the exception
propagates to the caller), paired with the number of times the cleanup was
invoked on the original pointer `ptr_` by this constructor — on the throw
path the `catch` block runs `deleter(ptr_)` once before rethrowing; on the
success path the deleter is only stored, never invoked. -/
def shared_ptr.rawCtor (ptr_ : Option Nat) (throws : Bool) :
    Except Unit (shared_ptr × control_block) × Nat :=
  if throws then
    (Except.error (), 1)
  else
    (Except.ok ({ cb := true, ptr := ptr_ }, ptr_block_new), 0)

/-- One shared control block together with the numbers of live owning and
observing handles whose control-block pointer refers to it. -/
structure Sys where
  blk : control_block
  owners : Nat
  observers : Nat
deriving Repr, DecidableEq

/-- The handle events that touch the shared control block. -/
inductive Op where
  /-- Copy an existing live owning handle (copy constructor, aliasing
  constructor, or the acquiring half of an assignment). -/
  | copyOwner
  /-- Reset or destroy a live owning handle (src/shared-ptr.h 169-184). -/
  | dropOwner
  /-- Move an owning handle: the pair transfers, no counter changes
  (src/shared-ptr.h 115-117). -/
  | moveOwner
  /-- Create an observer handle from a live owning or observer handle
  (src/shared-ptr.h 219-225). -/
  | copyObserver
  /-- Destroy a live observer handle (src/shared-ptr.h 256-261). -/
  | dropObserver
  /-- Move an observer handle: no counter changes (src/shared-ptr.h
  227-230). -/
  | moveObserver
  /-- `lock()` on a live observer handle (src/shared-ptr.h 250-254). -/
  | lockOp
deriving Repr, DecidableEq

/-- One handle event.  `none` when no live handle can perform it (such a
sequence cannot arise in a C++ program). -/
def step : Op → Sys → Option Sys
  | Op.copyOwner, s =>
      if 1 ≤ s.owners then
        some { s with owners := s.owners + 1, blk := s.blk.inc_strong }
      else none
  | Op.dropOwner, s =>
      if 1 ≤ s.owners then
        some { s with owners := s.owners - 1, blk := s.blk.dec_strong }
      else none
  | Op.moveOwner, s =>
      if 1 ≤ s.owners then some s else none
  | Op.copyObserver, s =>
      if 1 ≤ s.owners + s.observers then
        some { s with observers := s.observers + 1, blk := s.blk.inc_weak }
      else none
  | Op.dropObserver, s =>
      if 1 ≤ s.observers then
        some { s with observers := s.observers - 1, blk := s.blk.dec_weak }
      else none
  | Op.moveObserver, s =>
      if 1 ≤ s.observers then some s else none
  | Op.lockOp, s =>
      if 1 ≤ s.observers then
        if s.blk.get_strong ≠ 0 then
          some { s with owners := s.owners + 1, blk := s.blk.inc_strong }
        else some s
      else none

/-- Run a finite sequence of handle events. -/
def exec : List Op → Sys → Option Sys
  | [], s => some s
  | op :: ops, s =>
      match step op s with
      | some s1 => exec ops s1
      | none => none

/-- The state right after the payload is taken under management: one
owning handle, block counters at `strong = weak = 1`, nothing destroyed
(this is what both `make_shared` and the raw-pointer constructor
produce). -/
def Sys.init : Sys :=
  { blk := control_block.init.inc_strong, owners := 1, observers := 0 }

/-- The inductive invariant of the counting protocol: the strong count is
the number of live owning handles, the weak count adds the observers, the
payload has been destroyed exactly when the strong count is zero, and the
block has been deallocated exactly when the weak count is zero. -/
def SysInv (s : Sys) : Prop :=
  s.owners = s.blk.strong_cnt ∧
  s.blk.weak_cnt = s.blk.strong_cnt + s.observers ∧
  s.blk.dataDeleted = (if s.blk.strong_cnt = 0 then 1 else 0) ∧
  s.blk.freed = (if s.blk.weak_cnt = 0 then 1 else 0)

/-- Whether a handle satisfies the null-together invariant: its
control-block pointer and payload pointer are null together. -/
def nullTogether (h : shared_ptr) : Prop :=
  h.cb = false ↔ h.ptr = none

instance (h : shared_ptr) : Decidable (nullTogether h) := by
  unfold nullTogether
  infer_instance

lemma Inv_init : SysInv Sys.init := by
  simp [SysInv, Sys.init, control_block.init, control_block.inc_strong,
    control_block.inc_weak]

lemma control_block.inc_strong_spec (b : control_block) :
    (b.inc_strong).strong_cnt = b.strong_cnt + 1 ∧
    (b.inc_strong).weak_cnt = b.weak_cnt + 1 ∧
    (b.inc_strong).dataDeleted = b.dataDeleted ∧
    (b.inc_strong).freed = b.freed := by
  simp [control_block.inc_strong, control_block.inc_weak]

lemma control_block.inc_weak_spec (b : control_block) :
    (b.inc_weak).strong_cnt = b.strong_cnt ∧
    (b.inc_weak).weak_cnt = b.weak_cnt + 1 ∧
    (b.inc_weak).dataDeleted = b.dataDeleted ∧
    (b.inc_weak).freed = b.freed := by
  simp [control_block.inc_weak]

lemma control_block.dec_weak_spec (b : control_block) :
    (b.dec_weak).strong_cnt = b.strong_cnt ∧
    (b.dec_weak).weak_cnt = b.weak_cnt - 1 ∧
    (b.dec_weak).dataDeleted = b.dataDeleted ∧
    (b.dec_weak).freed =
      (if b.weak_cnt - 1 = 0 then b.freed + 1 else b.freed) := by
  simp only [control_block.dec_weak]
  split_ifs <;> simp

lemma control_block.dec_strong_spec (b : control_block) :
    (b.dec_strong).strong_cnt = b.strong_cnt - 1 ∧
    (b.dec_strong).weak_cnt = b.weak_cnt - 1 ∧
    (b.dec_strong).dataDeleted =
      (if b.strong_cnt - 1 = 0 then b.dataDeleted + 1 else b.dataDeleted) ∧
    (b.dec_strong).freed =
      (if b.weak_cnt - 1 = 0 then b.freed + 1 else b.freed) := by
  simp only [control_block.dec_strong, control_block.strongRelease,
    control_block.delete_data, control_block.dec_weak]
  split_ifs <;> simp

lemma step_inv {op : Op} {s s1 : Sys} (hI : SysInv s)
    (hs : step op s = some s1) : SysInv s1 := by
  obtain ⟨h1, h2, h3, h4⟩ := hI
  cases op with
  | copyOwner =>
      simp only [step] at hs
      split at hs
      case isTrue hpos =>
        cases hs
        obtain ⟨e1, e2, e3, e4⟩ := control_block.inc_strong_spec s.blk
        refine ⟨?_, ?_, ?_, ?_⟩ <;> dsimp only <;>
          simp only [e1, e2, e3, e4] <;> split_ifs at * <;> omega
      case isFalse => cases hs
  | dropOwner =>
      simp only [step] at hs
      split at hs
      case isTrue hpos =>
        cases hs
        obtain ⟨e1, e2, e3, e4⟩ := control_block.dec_strong_spec s.blk
        refine ⟨?_, ?_, ?_, ?_⟩ <;> dsimp only <;>
          simp only [e1, e2, e3, e4] <;> split_ifs at * <;> omega
      case isFalse => cases hs
  | moveOwner =>
      simp only [step] at hs
      split at hs
      case isTrue => cases hs; exact ⟨h1, h2, h3, h4⟩
      case isFalse => cases hs
  | copyObserver =>
      simp only [step] at hs
      split at hs
      case isTrue hpos =>
        cases hs
        obtain ⟨e1, e2, e3, e4⟩ := control_block.inc_weak_spec s.blk
        refine ⟨?_, ?_, ?_, ?_⟩ <;> dsimp only <;>
          simp only [e1, e2, e3, e4] <;> split_ifs at * <;> omega
      case isFalse => cases hs
  | dropObserver =>
      simp only [step] at hs
      split at hs
      case isTrue hpos =>
        cases hs
        obtain ⟨e1, e2, e3, e4⟩ := control_block.dec_weak_spec s.blk
        refine ⟨?_, ?_, ?_, ?_⟩ <;> dsimp only <;>
          simp only [e1, e2, e3, e4] <;> split_ifs at * <;> omega
      case isFalse => cases hs
  | moveObserver =>
      simp only [step] at hs
      split at hs
      case isTrue => cases hs; exact ⟨h1, h2, h3, h4⟩
      case isFalse => cases hs
  | lockOp =>
      simp only [step, control_block.get_strong] at hs
      split at hs
      case isTrue hobs =>
        split at hs
        case isTrue hnz =>
          cases hs
          obtain ⟨e1, e2, e3, e4⟩ := control_block.inc_strong_spec s.blk
          refine ⟨?_, ?_, ?_, ?_⟩ <;> dsimp only <;>
            simp only [e1, e2, e3, e4] <;> split_ifs at * <;> omega
        case isFalse =>
          cases hs; exact ⟨h1, h2, h3, h4⟩
      case isFalse => cases hs

lemma exec_inv : ∀ (ops : List Op) (s s1 : Sys), SysInv s →
    exec ops s = some s1 → SysInv s1 := by
  intro ops
  induction ops with
  | nil => intro s s1 hI hs; cases hs; exact hI
  | cons op ops ih =>
      intro s s1 hI hs
      simp only [exec] at hs
      cases hstep : step op s with
      | none => rw [hstep] at hs; cases hs
      | some s2 =>
          rw [hstep] at hs
          exact ih s2 s1 (step_inv hI hstep) hs

lemma exec_init_inv {ops : List Op} {s : Sys}
    (hs : exec ops Sys.init = some s) : SysInv s :=
  exec_inv ops Sys.init s Inv_init hs

lemma control_block.inc_dec_cancel (b : control_block)
    (hstrong : 1 ≤ b.strong_cnt) (hweak : 1 ≤ b.weak_cnt) :
    (b.inc_strong).dec_strong = b := by
  obtain ⟨bs, bw, bd, bf⟩ := b
  simp only [control_block.inc_strong, control_block.inc_weak,
    control_block.dec_strong, control_block.strongRelease,
    control_block.dec_weak, control_block.delete_data,
    Nat.add_sub_cancel] at *
  split_ifs <;> simp_all

/-- C1: over every finite sequence of copy constructions, move
constructions, assignments and reset/destroy calls on handles sharing one
payload (replayed by `exec` from `Sys.init`), the payload's destructor
`delete_data` has run at most once at every observable point, and it has
run exactly once precisely when no live Owning Handle references the
payload any more. -/
theorem C1_payload_destructor_once {ops : List Op} {s : Sys}
    (hs : exec ops Sys.init = some s) :
    s.blk.dataDeleted ≤ 1 ∧ (s.blk.dataDeleted = 1 ↔ s.owners = 0) := by
  obtain ⟨h1, h2, h3, h4⟩ := exec_init_inv hs
  split_ifs at h3 h4 <;> omega

/-- C1 witness: copy the initial handle, then reset both owning handles;
the payload destructor has run exactly once and only at the end. -/
theorem C1_witness :
    (Sys.mk (control_block.mk 0 0 1 1) 0 0).blk.dataDeleted ≤ 1 ∧
    ((Sys.mk (control_block.mk 0 0 1 1) 0 0).blk.dataDeleted = 1 ↔
      (Sys.mk (control_block.mk 0 0 1 1) 0 0).owners = 0) :=
  C1_payload_destructor_once
    (show exec [Op.copyOwner, Op.dropOwner, Op.dropOwner] Sys.init =
      some (Sys.mk (control_block.mk 0 0 1 1) 0 0) by decide)

/-- C2: over every finite sequence of handle operations (observers
included), the control block is deallocated (`freed`) at most once, it is
deallocated exactly once precisely when every owning and observing handle
is gone, deallocation implies the payload destructor already ran, and
within `dec_strong` the payload destruction (`strongRelease`) happens
strictly before the weak decrement that may trigger self-deletion: the
release stage already incremented `dataDeleted` while `weak_cnt` and
`freed` are still untouched. -/
theorem C2_block_deallocated_once {ops : List Op} {s : Sys}
    (hs : exec ops Sys.init = some s) :
    s.blk.freed ≤ 1 ∧
    (s.blk.freed = 1 ↔ s.owners = 0 ∧ s.observers = 0) ∧
    (s.blk.freed = 1 → s.blk.dataDeleted = 1) ∧
    s.blk.dec_strong =
      control_block.dec_weak (control_block.strongRelease s.blk) ∧
    (s.blk.strong_cnt = 1 →
      (control_block.strongRelease s.blk).dataDeleted =
        s.blk.dataDeleted + 1 ∧
      (control_block.strongRelease s.blk).weak_cnt = s.blk.weak_cnt ∧
      (control_block.strongRelease s.blk).freed = s.blk.freed) := by
  obtain ⟨h1, h2, h3, h4⟩ := exec_init_inv hs
  refine ⟨?_, ?_, ?_, rfl, ?_⟩
  · split_ifs at h3 h4 <;> omega
  · split_ifs at h3 h4 <;> omega
  · split_ifs at h3 h4 <;> omega
  · intro hone
    simp [control_block.strongRelease, control_block.delete_data, hone]

/-- C2 witness: create an observer, reset the owning handle, destroy the
observer; the block is deallocated once, after the payload destructor, and
at the initial state (strong count 1) the release stage destroys the
payload before any weak decrement. -/
theorem C2_witness :
    (Sys.mk (control_block.mk 0 0 1 1) 0 0).blk.freed = 1 ∧
    (Sys.mk (control_block.mk 0 0 1 1) 0 0).blk.dataDeleted = 1 ∧
    (control_block.strongRelease Sys.init.blk).dataDeleted =
      Sys.init.blk.dataDeleted + 1 := by
  have ha := C2_block_deallocated_once
    (show exec [Op.copyObserver, Op.dropOwner, Op.dropObserver] Sys.init =
      some (Sys.mk (control_block.mk 0 0 1 1) 0 0) by decide)
  have hb := C2_block_deallocated_once
    (show exec [] Sys.init = some Sys.init from rfl)
  have hfree : (Sys.mk (control_block.mk 0 0 1 1) 0 0).blk.freed = 1 :=
    ha.2.1.mpr ⟨rfl, rfl⟩
  exact ⟨hfree, ha.2.2.1 hfree, (hb.2.2.2.2 (by decide)).1⟩

/-- C3 counterexample: a freshly constructed `obj_block` does not have
strong count 1 — its constructor performs no counter operation, so the
count is still the member-initializer value 0. -/
theorem C3_counterexample : obj_block_new.strong_cnt ≠ 1 := by decide

/-- C3 (amended): a freshly constructed `obj_block` has strong count 0
(and weak count 0); the single strong reference is registered only by the
Owning Handle that `make_shared` wraps around the block, after which the
block's strong and weak counts are 1. -/
theorem C3_strong_registered_by_wrapping_handle :
    obj_block_new.strong_cnt = 0 ∧ obj_block_new.weak_cnt = 0 ∧
    make_shared.1.cb = true ∧ make_shared.2.strong_cnt = 1 ∧
    make_shared.2.weak_cnt = 1 := by decide

/-- C4 counterexample: the aliasing constructor applied to an empty handle
with a non-null alternate pointer yields a handle whose control-block
pointer is null while its payload pointer is not — the null-together
invariant fails right after a public constructor. -/
theorem C4_counterexample :
    ¬ nullTogether
      (shared_ptr.aliasCtor shared_ptr.empty (some 7) control_block.init).1 := by
  decide

/-- C4 (amended): the null-together invariant holds for the
default-constructed handle and is preserved by copy construction, move
construction (the moved-from handle is fully nulled), copy and move
assignment, reset, swap, and move self-assignment; the aliasing
constructor is the exception and can break it. -/
theorem C4_null_together_preserved (h other : shared_ptr)
    (b : control_block) (hh : nullTogether h) (ho : nullTogether other) :
    nullTogether shared_ptr.empty ∧
    nullTogether (shared_ptr.copyCtor other b).1 ∧
    nullTogether (shared_ptr.moveCtor other).1 ∧
    (shared_ptr.moveCtor other).2 = shared_ptr.empty ∧
    nullTogether (shared_ptr.reset h b).1 ∧
    nullTogether (shared_ptr.copyAssign h other b).1 ∧
    nullTogether (shared_ptr.moveAssign h other b).1 ∧
    (shared_ptr.moveAssign h other b).2.1 = shared_ptr.empty ∧
    nullTogether (shared_ptr.swap h other).1 ∧
    nullTogether (shared_ptr.swap h other).2 ∧
    nullTogether (shared_ptr.moveSelfAssign h b).1 :=
  ⟨⟨fun _ => rfl, fun _ => rfl⟩, ho, ho, rfl, ⟨fun _ => rfl, fun _ => rfl⟩,
    ho, ho, rfl, ho, hh, hh⟩

/-- C4 witness: the preservation facts at a concrete satisfying handle
pair and block. -/
theorem C4_witness :
    nullTogether shared_ptr.empty ∧
    nullTogether
      (shared_ptr.copyCtor (shared_ptr.mk true (some 3))
        (control_block.mk 1 1 0 0)).1 ∧
    nullTogether (shared_ptr.moveCtor (shared_ptr.mk true (some 3))).1 ∧
    (shared_ptr.moveCtor (shared_ptr.mk true (some 3))).2 =
      shared_ptr.empty ∧
    nullTogether
      (shared_ptr.reset shared_ptr.empty (control_block.mk 1 1 0 0)).1 ∧
    nullTogether
      (shared_ptr.copyAssign shared_ptr.empty (shared_ptr.mk true (some 3))
        (control_block.mk 1 1 0 0)).1 ∧
    nullTogether
      (shared_ptr.moveAssign shared_ptr.empty (shared_ptr.mk true (some 3))
        (control_block.mk 1 1 0 0)).1 ∧
    (shared_ptr.moveAssign shared_ptr.empty (shared_ptr.mk true (some 3))
      (control_block.mk 1 1 0 0)).2.1 = shared_ptr.empty ∧
    nullTogether
      (shared_ptr.swap shared_ptr.empty (shared_ptr.mk true (some 3))).1 ∧
    nullTogether
      (shared_ptr.swap shared_ptr.empty (shared_ptr.mk true (some 3))).2 ∧
    nullTogether
      (shared_ptr.moveSelfAssign shared_ptr.empty
        (control_block.mk 1 1 0 0)).1 :=
  C4_null_together_preserved shared_ptr.empty (shared_ptr.mk true (some 3))
    (control_block.mk 1 1 0 0) (by decide) (by decide)

/-- C5: `lock()` returns a handle sharing the control block with the
strong count incremented by one exactly when the observer's control block
exists and the strong count is nonzero; otherwise it returns the empty
handle and the block is unchanged. -/
theorem C5_lock (w : weak_ptr) (b : control_block) :
    (w.cb = true ∧ b.strong_cnt ≠ 0 →
      weak_ptr.lock w b =
        (shared_ptr.mk true w.ptr, b.inc_strong) ∧
      (b.inc_strong).strong_cnt = b.strong_cnt + 1) ∧
    (¬ (w.cb = true ∧ b.strong_cnt ≠ 0) →
      weak_ptr.lock w b = (shared_ptr.empty, b)) := by
  constructor
  · rintro ⟨hcb, hnz⟩
    refine ⟨?_, (control_block.inc_strong_spec b).1⟩
    simp [weak_ptr.lock, shared_ptr.privCtor, shared_ptr.safe_inc,
      control_block.get_strong, hcb, hnz]
  · intro hn
    rw [weak_ptr.lock, if_neg]
    simpa [control_block.get_strong] using hn

/-- C5 witness: locking a live observer on a block with strong count 1
succeeds and increments the count; locking a null observer fails and
changes nothing. -/
theorem C5_witness :
    weak_ptr.lock (weak_ptr.mk true (some 5)) (control_block.mk 1 1 0 0) =
      (shared_ptr.mk true (some 5),
        (control_block.mk 1 1 0 0).inc_strong) ∧
    weak_ptr.lock (weak_ptr.mk false none) (control_block.mk 1 1 0 0) =
      (shared_ptr.empty, control_block.mk 1 1 0 0) :=
  ⟨((C5_lock (weak_ptr.mk true (some 5)) (control_block.mk 1 1 0 0)).1
      (by decide)).1,
   (C5_lock (weak_ptr.mk false none) (control_block.mk 1 1 0 0)).2
      (by decide)⟩

/-- C6: at every reachable state the weak count equals the strong count
plus the number of live Observer Handles, hence is at least the strong
count; and on the shared block `inc_strong` / `dec_strong` move the weak
count together with the strong count. -/
theorem C6_weak_count_invariant {ops : List Op} {s : Sys}
    (hs : exec ops Sys.init = some s) :
    s.blk.weak_cnt = s.blk.strong_cnt + s.observers ∧
    s.blk.strong_cnt ≤ s.blk.weak_cnt ∧
    (s.blk.inc_strong).strong_cnt = s.blk.strong_cnt + 1 ∧
    (s.blk.inc_strong).weak_cnt = s.blk.weak_cnt + 1 ∧
    (s.blk.dec_strong).strong_cnt = s.blk.strong_cnt - 1 ∧
    (s.blk.dec_strong).weak_cnt = s.blk.weak_cnt - 1 := by
  obtain ⟨h1, h2, h3, h4⟩ := exec_init_inv hs
  obtain ⟨i1, i2, i3, i4⟩ := control_block.inc_strong_spec s.blk
  obtain ⟨d1, d2, d3, d4⟩ := control_block.dec_strong_spec s.blk
  exact ⟨h2, by omega, i1, i2, d1, d2⟩

/-- C6 witness: after creating one observer from the initial owning
handle, the weak count is 2 = strong count 1 + one observer, and the
increment/decrement laws hold on that block. -/
theorem C6_witness :
    (Sys.mk (control_block.mk 1 2 0 0) 1 1).blk.weak_cnt =
      (Sys.mk (control_block.mk 1 2 0 0) 1 1).blk.strong_cnt +
        (Sys.mk (control_block.mk 1 2 0 0) 1 1).observers ∧
    (Sys.mk (control_block.mk 1 2 0 0) 1 1).blk.strong_cnt ≤
      (Sys.mk (control_block.mk 1 2 0 0) 1 1).blk.weak_cnt ∧
    ((Sys.mk (control_block.mk 1 2 0 0) 1 1).blk.inc_strong).strong_cnt =
      (Sys.mk (control_block.mk 1 2 0 0) 1 1).blk.strong_cnt + 1 ∧
    ((Sys.mk (control_block.mk 1 2 0 0) 1 1).blk.inc_strong).weak_cnt =
      (Sys.mk (control_block.mk 1 2 0 0) 1 1).blk.weak_cnt + 1 ∧
    ((Sys.mk (control_block.mk 1 2 0 0) 1 1).blk.dec_strong).strong_cnt =
      (Sys.mk (control_block.mk 1 2 0 0) 1 1).blk.strong_cnt - 1 ∧
    ((Sys.mk (control_block.mk 1 2 0 0) 1 1).blk.dec_strong).weak_cnt =
      (Sys.mk (control_block.mk 1 2 0 0) 1 1).blk.weak_cnt - 1 :=
  C6_weak_count_invariant
    (show exec [Op.copyObserver] Sys.init =
      some (Sys.mk (control_block.mk 1 2 0 0) 1 1) by decide)

/-- C7: at every reachable state, `use_count()` on a handle whose
control-block pointer is non-null returns the block's strong count, which
equals the number of live Owning Handles sharing the block; on an empty
handle (null control-block pointer) it returns 0. -/
theorem C7_use_count {ops : List Op} {s : Sys}
    (hs : exec ops Sys.init = some s) (h e : shared_ptr)
    (hh : h.cb = true) (he : e.cb = false) :
    shared_ptr.use_count h s.blk = s.blk.get_strong ∧
    shared_ptr.use_count h s.blk = s.owners ∧
    shared_ptr.use_count e s.blk = 0 := by
  obtain ⟨h1, h2, h3, h4⟩ := exec_init_inv hs
  refine ⟨?_, ?_, ?_⟩ <;>
    simp [shared_ptr.use_count, control_block.get_strong, hh, he, h1]

/-- C7 witness: after one copy there are two owning handles and
`use_count` reads 2 through a live handle and 0 through an empty one. -/
theorem C7_witness :
    shared_ptr.use_count (shared_ptr.mk true (some 0))
      (Sys.mk (control_block.mk 2 2 0 0) 2 0).blk =
      (Sys.mk (control_block.mk 2 2 0 0) 2 0).blk.get_strong ∧
    shared_ptr.use_count (shared_ptr.mk true (some 0))
      (Sys.mk (control_block.mk 2 2 0 0) 2 0).blk =
      (Sys.mk (control_block.mk 2 2 0 0) 2 0).owners ∧
    shared_ptr.use_count shared_ptr.empty
      (Sys.mk (control_block.mk 2 2 0 0) 2 0).blk = 0 :=
  C7_use_count
    (show exec [Op.copyOwner] Sys.init =
      some (Sys.mk (control_block.mk 2 2 0 0) 2 0) by decide)
    (shared_ptr.mk true (some 0)) shared_ptr.empty rfl rfl

/-- C8: if the raw-pointer constructor's block construction throws, the
exception propagates and the cleanup has been invoked on the original
pointer exactly once; on success the cleanup is not invoked and the
resulting handle owns a fresh `ptr_block` with strong count 1. -/
theorem C8_raw_ctor_cleanup (p : Option Nat) :
    (shared_ptr.rawCtor p true).1 = Except.error () ∧
    (shared_ptr.rawCtor p true).2 = 1 ∧
    (shared_ptr.rawCtor p false).2 = 0 ∧
    (shared_ptr.rawCtor p false).1 =
      Except.ok (shared_ptr.mk true p, ptr_block_new) ∧
    ptr_block_new.strong_cnt = 1 := by
  simp [shared_ptr.rawCtor, ptr_block_new, control_block.init,
    control_block.inc_strong, control_block.inc_weak]

/-- C9: copy self-assignment and move self-assignment leave the handle's
pair and the block's counters unchanged (for a live handle, whose block
then has positive strong and weak counts). -/
theorem C9_self_assignment (h : shared_ptr) (b : control_block)
    (hlive : h.cb = true → 1 ≤ b.strong_cnt ∧ 1 ≤ b.weak_cnt) :
    shared_ptr.copyAssign h h b = (h, b) ∧
    shared_ptr.moveSelfAssign h b = (h, b) := by
  refine ⟨?_, rfl⟩
  obtain ⟨hc, hp⟩ := h
  cases hc with
  | true =>
      obtain ⟨hstrong, hweak⟩ := hlive rfl
      simp [shared_ptr.copyAssign, shared_ptr.copyCtor, shared_ptr.swap,
        shared_ptr.reset, shared_ptr.safe_inc,
        control_block.inc_dec_cancel b hstrong hweak]
  | false =>
      simp [shared_ptr.copyAssign, shared_ptr.copyCtor, shared_ptr.swap,
        shared_ptr.reset, shared_ptr.safe_inc, shared_ptr.nullify]

/-- C9 witness: self-assigning the unique live handle of a fresh block
changes neither the handle nor the counters. -/
theorem C9_witness :
    shared_ptr.copyAssign (shared_ptr.mk true (some 4))
      (shared_ptr.mk true (some 4)) (control_block.mk 1 1 0 0) =
      (shared_ptr.mk true (some 4), control_block.mk 1 1 0 0) ∧
    shared_ptr.moveSelfAssign (shared_ptr.mk true (some 4))
      (control_block.mk 1 1 0 0) =
      (shared_ptr.mk true (some 4), control_block.mk 1 1 0 0) :=
  C9_self_assignment (shared_ptr.mk true (some 4))
    (control_block.mk 1 1 0 0) (by decide)

/-- C10: every operation reading only handles with a null control-block
pointer is a no-op on the block, for both handle kinds: copying, moving,
resetting and `safe_inc` on such an owning handle, assignment between
empty owning handles, copying an empty observer (from an empty owning or
observing handle), moving an empty observer, copy/move assignment between
empty observers, assigning an empty owning handle into an empty observer,
and destroying such an observer handle all leave the block untouched and
the handles without a control block. -/
theorem C10_empty_handle_noop (h : shared_ptr) (w : weak_ptr)
    (b : control_block) (hh : h.cb = false) (hw : w.cb = false) :
    (shared_ptr.copyCtor h b).2 = b ∧
    (shared_ptr.copyCtor h b).1.cb = false ∧
    (shared_ptr.moveCtor h).1.cb = false ∧
    (shared_ptr.moveCtor h).2 = shared_ptr.empty ∧
    shared_ptr.reset h b = (shared_ptr.empty, b) ∧
    shared_ptr.safe_inc h b = b ∧
    shared_ptr.copyAssign shared_ptr.empty shared_ptr.empty b =
      (shared_ptr.empty, b) ∧
    shared_ptr.moveAssign shared_ptr.empty shared_ptr.empty b =
      (shared_ptr.empty, shared_ptr.empty, b) ∧
    weak_ptr.dtor w b = b ∧
    (weak_ptr.fromHandle w.cb w.ptr b).2 = b ∧
    (weak_ptr.fromHandle w.cb w.ptr b).1.cb = false ∧
    (weak_ptr.fromHandle h.cb h.ptr b).2 = b ∧
    (weak_ptr.fromHandle h.cb h.ptr b).1.cb = false ∧
    (weak_ptr.moveCtor w).1.cb = false ∧
    (weak_ptr.moveCtor w).2 = weak_ptr.empty ∧
    weak_ptr.copyAssign weak_ptr.empty weak_ptr.empty b =
      (weak_ptr.empty, b) ∧
    weak_ptr.moveAssign weak_ptr.empty weak_ptr.empty b =
      (weak_ptr.empty, weak_ptr.empty, b) ∧
    weak_ptr.assignFromShared weak_ptr.empty shared_ptr.empty b =
      (weak_ptr.empty, b) := by
  refine ⟨?_, ?_, ?_, rfl, ?_, ?_, rfl, rfl, ?_, ?_, ?_, ?_, ?_, ?_, rfl,
    rfl, rfl, rfl⟩ <;>
    simp [shared_ptr.copyCtor, shared_ptr.moveCtor, shared_ptr.reset,
      shared_ptr.safe_inc, shared_ptr.nullify, weak_ptr.dtor,
      weak_ptr.fromHandle, weak_ptr.moveCtor, hh, hw]

/-- C10 witness: the no-op facts at a concrete empty owning handle, empty
observer handle, and a block with nonzero counters. -/
theorem C10_witness :
    (shared_ptr.copyCtor (shared_ptr.mk false none)
      (control_block.mk 3 5 0 0)).2 = control_block.mk 3 5 0 0 ∧
    (shared_ptr.copyCtor (shared_ptr.mk false none)
      (control_block.mk 3 5 0 0)).1.cb = false ∧
    (shared_ptr.moveCtor (shared_ptr.mk false none)).1.cb = false ∧
    (shared_ptr.moveCtor (shared_ptr.mk false none)).2 =
      shared_ptr.empty ∧
    shared_ptr.reset (shared_ptr.mk false none)
      (control_block.mk 3 5 0 0) =
      (shared_ptr.empty, control_block.mk 3 5 0 0) ∧
    shared_ptr.safe_inc (shared_ptr.mk false none)
      (control_block.mk 3 5 0 0) = control_block.mk 3 5 0 0 ∧
    shared_ptr.copyAssign shared_ptr.empty shared_ptr.empty
      (control_block.mk 3 5 0 0) =
      (shared_ptr.empty, control_block.mk 3 5 0 0) ∧
    shared_ptr.moveAssign shared_ptr.empty shared_ptr.empty
      (control_block.mk 3 5 0 0) =
      (shared_ptr.empty, shared_ptr.empty, control_block.mk 3 5 0 0) ∧
    weak_ptr.dtor (weak_ptr.mk false none) (control_block.mk 3 5 0 0) =
      control_block.mk 3 5 0 0 ∧
    (weak_ptr.fromHandle (weak_ptr.mk false none).cb
      (weak_ptr.mk false none).ptr (control_block.mk 3 5 0 0)).2 =
      control_block.mk 3 5 0 0 ∧
    (weak_ptr.fromHandle (weak_ptr.mk false none).cb
      (weak_ptr.mk false none).ptr (control_block.mk 3 5 0 0)).1.cb =
      false ∧
    (weak_ptr.fromHandle (shared_ptr.mk false none).cb
      (shared_ptr.mk false none).ptr (control_block.mk 3 5 0 0)).2 =
      control_block.mk 3 5 0 0 ∧
    (weak_ptr.fromHandle (shared_ptr.mk false none).cb
      (shared_ptr.mk false none).ptr (control_block.mk 3 5 0 0)).1.cb =
      false ∧
    (weak_ptr.moveCtor (weak_ptr.mk false none)).1.cb = false ∧
    (weak_ptr.moveCtor (weak_ptr.mk false none)).2 = weak_ptr.empty ∧
    weak_ptr.copyAssign weak_ptr.empty weak_ptr.empty
      (control_block.mk 3 5 0 0) =
      (weak_ptr.empty, control_block.mk 3 5 0 0) ∧
    weak_ptr.moveAssign weak_ptr.empty weak_ptr.empty
      (control_block.mk 3 5 0 0) =
      (weak_ptr.empty, weak_ptr.empty, control_block.mk 3 5 0 0) ∧
    weak_ptr.assignFromShared weak_ptr.empty shared_ptr.empty
      (control_block.mk 3 5 0 0) =
      (weak_ptr.empty, control_block.mk 3 5 0 0) :=
  C10_empty_handle_noop (shared_ptr.mk false none) (weak_ptr.mk false none)
    (control_block.mk 3 5 0 0) rfl rfl
